import Mathlib

/-!
Verification of the WSN dashboard core (dataset loader, filter engine,
summary statistics, top-nodes query, and the simulated blockchain
submission) against its natural-language specification.

The embedding follows the Python source:
  * `load_data`, `filter_data`, `get_stats` from `utils.py`;
  * the top-nodes query and inline filtering from `app.py`;
  * `send_wsn_data_to_blockchain` from `blockchain.py`.

Modelling conventions:
  * pandas cell values are `Cell` (numeric values as `Rat`, everything
    else as text); Python floats are modelled as `Rat`;
  * a raised Python exception is a `PyErr` carrying the exception class
    name and its message, and a fallible function returns `Except PyErr`;
  * pandas' `NaN` result for min/max/mean over an empty column — its
    "no data" sentinel — is modelled as `none : Option Rat`.
-/

/-- A pandas cell after `read_csv` type inference: numeric or text. -/
inductive Cell where
  | num (q : Rat)
  | text (s : String)
  deriving Repr, DecidableEq

/-- A raised Python exception: the exception class name and its message
(`str(e)`). -/
structure PyErr where
  ty : String
  msg : String
  deriving Repr, DecidableEq

/-- A parsed CSV table: the header row naming each column, and the data
rows as lists of cells. -/
structure RawFrame where
  header : List String
  rows : List (List Cell)
  deriving Repr, DecidableEq

/-- The input given to `load_data`: either an unreadable source (missing
file / unreadable stream, carrying the message `read_csv` raises) or a
readable CSV already parsed into a table. -/
inductive Source where
  | unreadable (detail : String)
  | table (frame : RawFrame)
  deriving Repr, DecidableEq

/-- The 18 required column names checked by `load_data` (`utils.py`
lines 23–29). -/
def expected_columns : List String :=
  ["Event", "Time", "S_Node", "Node_id", "Rest_Energy",
   "Trace_Level", "Mac_Type_Pckt", "Source_IP_Port",
   "Des_IP_Port", "Packet_Size", "TTL", "Hop_Count",
   "Broadcast_ID", "Dest_Node_Num", "Dest_Seq_Num",
   "Src_Node_ID", "Src_Seq_Num", "Class"]

/-- The missing-column computation of `utils.py` line 32:
`[col for col in expected_columns if col not in df.columns]`. -/
def missingOf (header : List String) : List String :=
  expected_columns.filter (fun col => !(header.contains col))

/-- Python `int()` truncation of a rational towards zero, as used by
`astype(int)`. -/
def ratTrunc (q : Rat) : Int :=
  if 0 ≤ q then ⌊q⌋ else ⌈q⌉

/-- `astype(int)` on one cell: numeric values truncate towards zero,
non-numeric text raises `ValueError`. -/
def cellToInt (c : Cell) : Except PyErr Cell :=
  match c with
  | .num q => .ok (.num (ratTrunc q : Int))
  | .text s =>
      .error ⟨"ValueError", "invalid literal for int() with base 10: " ++ s⟩

/-- `astype(float)` on one cell: numeric values pass through,
non-numeric text raises `ValueError`. -/
def cellToFloat (c : Cell) : Except PyErr Cell :=
  match c with
  | .num q => .ok (.num q)
  | .text s =>
      .error ⟨"ValueError", "could not convert string to float: " ++ s⟩

/-- `astype(str)` on one cell: always succeeds, rendering the value. -/
def cellToStr (c : Cell) : Except PyErr Cell :=
  match c with
  | .num q => .ok (.text (toString q))
  | .text s => .ok (.text s)

/-- Index of a column name in the header. -/
def colIndex (header : List String) (name : String) : Option Nat :=
  header.findIdx? (fun c => c == name)

/-- Apply a cell coercion at position `i` of one row; the first failing
cell raises. -/
def coerceAt (f : Cell → Except PyErr Cell) (i : Nat) (row : List Cell) :
    Except PyErr (List Cell) :=
  match row[i]? with
  | some c => do
      let c2 ← f c
      pure (row.set i c2)
  | none => pure row

/-- `df[name] = df[name].astype(...)`: coerce the named column in every
row; a missing column raises `KeyError` (unreachable after the schema
check). -/
def astypeNamed (frame : RawFrame) (name : String)
    (f : Cell → Except PyErr Cell) : Except PyErr RawFrame :=
  match colIndex frame.header name with
  | some i => do
      let rows ← frame.rows.mapM (coerceAt f i)
      pure ⟨frame.header, rows⟩
  | none => .error ⟨"KeyError", name⟩

/-- The body of the `try:` block of `load_data` (`utils.py` lines
18–44): read the CSV, check the 18 required columns, raising
`ValueError` naming the missing ones, then coerce the six typed
columns in order. -/
def load_data_inner (src : Source) : Except PyErr RawFrame :=
  match src with
  | .unreadable detail => .error ⟨"FileNotFoundError", detail⟩
  | .table frame =>
      let missing := missingOf frame.header
      if !missing.isEmpty then
        .error ⟨"ValueError",
          "Missing required columns: " ++ String.intercalate ", " missing⟩
      else do
        let f1 ← astypeNamed frame "Event" cellToInt
        let f2 ← astypeNamed f1 "Time" cellToFloat
        let f3 ← astypeNamed f2 "S_Node" cellToInt
        let f4 ← astypeNamed f3 "Node_id" cellToInt
        let f5 ← astypeNamed f4 "Rest_Energy" cellToFloat
        let f6 ← astypeNamed f5 "Class" cellToStr
        pure f6

/-- `load_data` (`utils.py` lines 8–47): the whole body runs inside
`try: ... except Exception as e: raise Exception(f"Error loading data:
{str(e)}")`, so every failure is re-raised as the generic `Exception`
class with the original message appended to a fixed prefix. -/
def load_data (src : Source) : Except PyErr RawFrame :=
  match load_data_inner src with
  | .ok v => .ok v
  | .error e => .error ⟨"Exception", "Error loading data: " ++ e.msg⟩

/-- The exception class of a failed computation, if it failed. -/
def errKind (r : Except PyErr RawFrame) : Option String :=
  match r with
  | .error e => some e.ty
  | .ok _ => none

/-- One record of the validated dataset, as produced by `load_data`: the
six coerced columns carry their coerced types, the remaining twelve are
passthrough cells. -/
structure Row where
  Event : Int
  Time : Rat
  S_Node : Int
  Node_id : Int
  Rest_Energy : Rat
  Class : String
  Trace_Level : Cell
  Mac_Type_Pckt : Cell
  Source_IP_Port : Cell
  Des_IP_Port : Cell
  Packet_Size : Cell
  TTL : Cell
  Hop_Count : Cell
  Broadcast_ID : Cell
  Dest_Node_Num : Cell
  Dest_Seq_Num : Cell
  Src_Node_ID : Cell
  Src_Seq_Num : Cell
  deriving Repr, DecidableEq

/-- A validated dataset: an ordered sequence of records. -/
abbrev DataFrame := List Row

/-- `filter_data` (`utils.py` lines 49–78).  The three clauses are
applied in sequence to a copy of the input.  Each guard mirrors Python
truthiness: `if time_range:` is false only for `None` (a two-tuple is
always truthy); `if node_ids:` and `if classes:` are false both for
`None` and for an empty list, so an empty list skips the filter. -/
def filter_data (df : DataFrame) (time_range : Option (Rat × Rat))
    (node_ids : Option (List Int)) (classes : Option (List String)) :
    DataFrame :=
  let filtered_df := df
  let filtered_df :=
    match time_range with
    | some (min_time, max_time) =>
        filtered_df.filter
          (fun r => decide (min_time ≤ r.Time) && decide (r.Time ≤ max_time))
    | none => filtered_df
  let filtered_df :=
    match node_ids with
    | some ids =>
        if ids.isEmpty then filtered_df
        else filtered_df.filter (fun r => ids.contains r.Node_id)
    | none => filtered_df
  let filtered_df :=
    match classes with
    | some cs =>
        if cs.isEmpty then filtered_df
        else filtered_df.filter (fun r => cs.contains r.Class)
    | none => filtered_df
  filtered_df

/-- `filter_data` with the local-variable frame made explicit: the body
binds `filtered_df = df.copy()` and only ever rebinds `filtered_df`; no
statement assigns into `df`.  Returns the pair (value of `df` after the
call, returned value). -/
def filter_data_run (df : DataFrame) (time_range : Option (Rat × Rat))
    (node_ids : Option (List Int)) (classes : Option (List String)) :
    DataFrame × DataFrame :=
  let filtered_df := df
  let filtered_df :=
    match time_range with
    | some (min_time, max_time) =>
        filtered_df.filter
          (fun r => decide (min_time ≤ r.Time) && decide (r.Time ≤ max_time))
    | none => filtered_df
  let filtered_df :=
    match node_ids with
    | some ids =>
        if ids.isEmpty then filtered_df
        else filtered_df.filter (fun r => ids.contains r.Node_id)
    | none => filtered_df
  let filtered_df :=
    match classes with
    | some cs =>
        if cs.isEmpty then filtered_df
        else filtered_df.filter (fun r => cs.contains r.Class)
    | none => filtered_df
  (df, filtered_df)

/-- The combined row predicate of `filter_data`: the conjunction of the
three optional clauses, each guarded exactly as in the source. -/
def rowKeep (time_range : Option (Rat × Rat)) (node_ids : Option (List Int))
    (classes : Option (List String)) (r : Row) : Bool :=
  (match time_range with
   | some (min_time, max_time) =>
       decide (min_time ≤ r.Time) && decide (r.Time ≤ max_time)
   | none => true)
  && (match node_ids with
      | some ids => if ids.isEmpty then true else ids.contains r.Node_id
      | none => true)
  && (match classes with
      | some cs => if cs.isEmpty then true else cs.contains r.Class
      | none => true)

/-- `Series.min` on a float column: `NaN` (modelled `none`) when empty. -/
def seriesMin : List Rat → Option Rat
  | [] => none
  | x :: xs => some (xs.foldl min x)

/-- `Series.max` on a float column: `NaN` (modelled `none`) when empty. -/
def seriesMax : List Rat → Option Rat
  | [] => none
  | x :: xs => some (xs.foldl max x)

/-- `Series.mean` on a float column: `NaN` (modelled `none`) when empty. -/
def seriesMean (l : List Rat) : Option Rat :=
  match l with
  | [] => none
  | _ => some (l.sum / (l.length : Rat))

/-- Stable insertion of a (class, count) pair into a list sorted by
descending count. -/
def insertByCount (p : String × Nat) :
    List (String × Nat) → List (String × Nat)
  | [] => [p]
  | q :: t => if q.2 < p.2 then p :: q :: t else q :: insertByCount p t

/-- `Series.value_counts().to_dict()` on the `Class` column: one count
per distinct value, sorted by descending count. -/
def classCounts (l : List String) : List (String × Nat) :=
  (l.dedup.map (fun c => (c, l.count c))).foldr insertByCount []

/-- The dictionary returned by `get_stats`. -/
structure Stats where
  total_records : Nat
  unique_nodes : Nat
  time_range : Option Rat × Option Rat
  class_distribution : List (String × Nat)
  avg_energy : Option Rat
  min_energy : Option Rat
  max_energy : Option Rat
  deriving Repr, DecidableEq

/-- `get_stats` (`utils.py` lines 80–100): record count, distinct node
count, time range, class distribution, and energy aggregates.  On an
empty dataset pandas yields `NaN` for min/max/mean (modelled `none`)
and 0 for the counts without raising; the embedding is total. -/
def get_stats (df : DataFrame) : Stats :=
  { total_records := df.length
    unique_nodes := (df.map Row.Node_id).dedup.length
    time_range := (seriesMin (df.map Row.Time), seriesMax (df.map Row.Time))
    class_distribution := classCounts (df.map Row.Class)
    avg_energy := seriesMean (df.map Row.Rest_Energy)
    min_energy := seriesMin (df.map Row.Rest_Energy)
    max_energy := seriesMax (df.map Row.Rest_Energy) }

/-- The sixteen lowercase hexadecimal digit characters. -/
def hexChars : List Char :=
  "0123456789abcdef".toList

/-- The hexadecimal digit character for `m % 16`. -/
def hexChar (m : Nat) : Char :=
  hexChars.getD (m % 16) '0'

/-- A 256-bit digest of a string.  Models `Web3.keccak(text=...)`: the
real keccak-256 is a library primitive outside this repository, so it is
modelled as a deterministic 256-bit digest; the claims depend only on
the digest being a fixed-width value rendered in hexadecimal. -/
def digest256 (s : String) : Nat :=
  s.toList.foldl (fun a c => (a * 131 + c.toNat) % (2 ^ 256)) 7

/-- The 64 hexadecimal digits of a 256-bit value. -/
def hexBody (n : Nat) : List Char :=
  (List.range 64).map (fun k => hexChar (n / 16 ^ k))

/-- `Web3.keccak(text=s).hex()`: the `0x`-prefixed 64-digit hexadecimal
rendering of the digest. -/
def keccakHex (s : String) : String :=
  String.mk ('0' :: 'x' :: hexBody (digest256 s))

/-- `send_wsn_data_to_blockchain` (`blockchain.py` lines 154–180).  The
`try:` body sleeps (no effect on the result) and returns
`(True, keccak hex of the interpolated fields)`; since no statement in
the body can raise, the `except` branch returning `(False, str(e))` is
dead and the embedding is the direct return.  `now` is the value of
`time.time()` interpolated into the hashed text. -/
def send_wsn_data_to_blockchain (node_id : Int) (energy : Rat)
    (node_class : String) (timestamp : Rat) (now : Rat) : Bool × String :=
  let tx_hash := keccakHex
    (toString node_id ++ "-" ++ toString energy ++ "-" ++ node_class ++
      "-" ++ toString timestamp ++ "-" ++ toString now)
  (true, tx_hash)

/-- Whether a character is a lowercase hexadecimal digit. -/
def isHexChar (c : Char) : Bool :=
  hexChars.contains c

/-- Helper: a concrete record with the given time, node id and class,
all other fields defaulted, used to instantiate theorems. -/
def mkRow (t : Rat) (nid : Int) (cls : String) : Row :=
  ⟨0, t, 0, nid, 600, cls, .num 5, .text "mac", .text "src", .text "des",
   .num 55, .num 30, .num 1, .num 0, .num 0, .num 0, .num 0, .num 0⟩

/-- The three sequential masks of `filter_data` compose into one filter
by the conjunction of the guarded clauses. -/
theorem filter_data_eq_filter (df : DataFrame) (tr : Option (Rat × Rat))
    (ns : Option (List Int)) (cs : Option (List String)) :
    filter_data df tr ns cs = df.filter (fun r => rowKeep tr ns cs r) := by
  rcases tr with _ | ⟨a, b⟩ <;> rcases ns with _ | ids <;> rcases cs with _ | l <;>
  all_goals (first | (cases hi : ids.isEmpty) | skip)
  all_goals (first | (cases hl : l.isEmpty) | skip)
  all_goals
    simp_all [filter_data, rowKeep, List.filter_filter,
      Bool.and_comm, Bool.and_left_comm, Bool.and_assoc]

/-- C2: a nodeIds clause or classes clause that is present but empty
imposes no restriction — `filter_data` with an empty `node_ids` list
(likewise an empty `classes` list) behaves exactly as if the clause
were omitted, and with only empty clauses it returns every row of the
input. -/
theorem C2_empty_clause_unrestricted (df : DataFrame)
    (tr : Option (Rat × Rat)) (ns : Option (List Int))
    (cs : Option (List String)) :
    filter_data df tr (some []) cs = filter_data df tr none cs ∧
    filter_data df tr ns (some []) = filter_data df tr ns none ∧
    filter_data df none (some []) (some []) = df := by
  refine ⟨?_, ?_, ?_⟩ <;> rfl

/-- C5: with all three clauses present and non-empty, a row is in the
output of `filter_data` iff it is a row of the input satisfying every
clause conjointly: `Time` within the range inclusively on both ends,
`Node_id` a member of the node list, and `Class` a member of the class
list. -/
theorem C5_conjunctive_filter (df : DataFrame) (a b : Rat) (ns : List Int)
    (cs : List String) (r : Row) (hns : ns ≠ []) (hcs : cs ≠ []) :
    r ∈ filter_data df (some (a, b)) (some ns) (some cs) ↔
      r ∈ df ∧ (a ≤ r.Time ∧ r.Time ≤ b) ∧ r.Node_id ∈ ns ∧ r.Class ∈ cs := by
  rw [filter_data_eq_filter, List.mem_filter]
  have hns2 : ns.isEmpty = false := by simp [hns]
  have hcs2 : cs.isEmpty = false := by simp [hcs]
  simp [rowKeep, hns2, hcs2, List.contains, and_assoc]

/-- Witness for C5 at a concrete dataset, range, node set and class
set. -/
theorem C5_conjunctive_filter_witness :
    ([79] : List Int) ≠ [] ∧ (["normal"] : List String) ≠ [] ∧
    (mkRow (1/10) 79 "normal" ∈
      filter_data [mkRow (1/10) 79 "normal", mkRow (3/20) 78 "Blackhole"]
        (some (0, 1)) (some [79]) (some ["normal"]) ↔
      mkRow (1/10) 79 "normal" ∈
        [mkRow (1/10) 79 "normal", mkRow (3/20) 78 "Blackhole"] ∧
      ((0 : Rat) ≤ (mkRow (1/10) 79 "normal").Time ∧
        (mkRow (1/10) 79 "normal").Time ≤ 1) ∧
      (mkRow (1/10) 79 "normal").Node_id ∈ ([79] : List Int) ∧
      (mkRow (1/10) 79 "normal").Class ∈ (["normal"] : List String)) :=
  ⟨by decide, by decide,
    C5_conjunctive_filter
      [mkRow (1/10) 79 "normal", mkRow (3/20) 78 "Blackhole"]
      0 1 [79] ["normal"] (mkRow (1/10) 79 "normal")
      (by decide) (by decide)⟩

/-- C7: `filter_data` is idempotent — applying the same predicate twice
returns the same result as applying it once. -/
theorem C7_filter_idempotent (df : DataFrame) (tr : Option (Rat × Rat))
    (ns : Option (List Int)) (cs : Option (List String)) :
    filter_data (filter_data df tr ns cs) tr ns cs =
      filter_data df tr ns cs := by
  rw [filter_data_eq_filter, filter_data_eq_filter, List.filter_filter]
  simp [Bool.and_self]

/-- C8: the output of `filter_data` is an order-preserving subsequence
of its input (every output row occurs in the input, none duplicated or
synthesized, relative order kept), and with no clauses at all the
output equals the input in content and order. -/
theorem C8_filter_sublist_identity (df : DataFrame)
    (tr : Option (Rat × Rat)) (ns : Option (List Int))
    (cs : Option (List String)) :
    List.Sublist (filter_data df tr ns cs) df ∧
    filter_data df none none none = df := by
  constructor
  · rw [filter_data_eq_filter]
    exact List.filter_sublist df
  · rfl

/-- C9: filtering never mutates its source — after the call the `df`
argument is unchanged and the returned value is a fresh derived
dataset; the body starts from `df.copy()` and only rebinds its local
variable. -/
theorem C9_filter_no_mutation (df : DataFrame) (tr : Option (Rat × Rat))
    (ns : Option (List Int)) (cs : Option (List String)) :
    (filter_data_run df tr ns cs).1 = df ∧
    (filter_data_run df tr ns cs).2 = filter_data df tr ns cs :=
  ⟨rfl, rfl⟩

/-- C4: `get_stats` applied to the empty dataset is a defined value,
not an exception: record count 0, distinct node count 0, and the time
range and mean/min/max of `Rest_Energy` reported as the `NaN`-as-`none`
"no data" sentinel rather than a numeric aggregate (the embedding is a
total function, mirroring that pandas raises nothing here). -/
theorem C4_stats_empty_dataset :
    get_stats ([] : DataFrame) = ⟨0, 0, (none, none), [], none, none, none⟩ := by
  rfl

/-- A CSV source whose header is missing sixteen required columns. -/
def srcSchemaFail : Source := .table ⟨["Event", "Time"], []⟩

/-- A CSV source with the full header whose `Event` column holds the
non-numeric text `abc`. -/
def srcCoerceFail : Source := .table ⟨expected_columns, [[Cell.text "abc"]]⟩

/-- An unreadable source (missing file), carrying the message Python's
`FileNotFoundError` renders. -/
def srcUnreadable : Source :=
  .unreadable "[Errno 2] No such file or directory: 'WSNBFSFdataset.csv'"

/-- C1 counterexample: the three failure causes — missing file, missing
required columns, non-numeric text in a numeric column — all surface
from `load_data` as the same single generic `Exception` kind, so the
caller cannot tell the kinds apart by the error's class; the claim that
the kinds are never collapsed into a single generic error fails. -/
theorem C1_counterexample :
    errKind (load_data srcSchemaFail) = some "Exception" ∧
    errKind (load_data srcCoerceFail) = some "Exception" ∧
    errKind (load_data srcUnreadable) = some "Exception" :=
  ⟨rfl, rfl, rfl⟩

/-- C1 (amended): every failed load attempt raises the one generic
`Exception` kind, whose message is the fixed prefix `Error loading
data: ` followed by the underlying detail; the causes are telling apart
only by message text, not by error kind. -/
theorem C1_amended_generic_wrapper (src : Source) (e : PyErr)
    (h : load_data src = .error e) :
    e.ty = "Exception" ∧ ∃ d, e.msg = "Error loading data: " ++ d := by
  unfold load_data at h
  cases hin : load_data_inner src with
  | ok v => rw [hin] at h; cases h
  | error e0 =>
      rw [hin] at h
      injection h with h2
      subst h2
      exact ⟨rfl, e0.msg, rfl⟩

/-- The wrapped error produced by loading `srcSchemaFail`. -/
def schemaFailErr : PyErr :=
  ⟨"Exception",
   "Error loading data: " ++
     ("Missing required columns: " ++
       String.intercalate ", " (missingOf ["Event", "Time"]))⟩

/-- Witness for the amended C1 at a concrete failing load. -/
theorem C1_amended_witness :
    schemaFailErr.ty = "Exception" ∧
    ∃ d, schemaFailErr.msg = "Error loading data: " ++ d :=
  C1_amended_generic_wrapper srcSchemaFail schemaFailErr rfl

/-- C6: whenever the header misses at least one required column,
`load_data` fails — it never returns a dataset built from the partial
schema — and the failure message names the missing columns: the list
joined into the message is exactly the set difference between the
eighteen required names and the header, all of them and no others. -/
theorem C6_schema_error_exact (frame : RawFrame)
    (h : missingOf frame.header ≠ []) :
    load_data (.table frame) =
      .error ⟨"Exception",
        "Error loading data: " ++
          ("Missing required columns: " ++
            String.intercalate ", " (missingOf frame.header))⟩ ∧
    ∀ c, c ∈ missingOf frame.header ↔
      c ∈ expected_columns ∧ c ∉ frame.header := by
  constructor
  · have h2 : (missingOf frame.header).isEmpty = false := by simpa using h
    simp [load_data, load_data_inner, h2]
  · intro c
    simp [missingOf, List.contains]

/-- Witness for C6 at a concrete header missing sixteen columns. -/
theorem C6_schema_error_exact_witness :
    missingOf ["Event", "Time"] ≠ [] ∧
    load_data (.table ⟨["Event", "Time"], []⟩) =
      .error ⟨"Exception",
        "Error loading data: " ++
          ("Missing required columns: " ++
            String.intercalate ", " (missingOf ["Event", "Time"]))⟩ :=
  ⟨by decide, (C6_schema_error_exact ⟨["Event", "Time"], []⟩ (by decide)).1⟩

/-- Every digit produced by `hexChar` is one of the sixteen hexadecimal
digit characters. -/
theorem hexChar_mem (m : Nat) : hexChar m ∈ hexChars := by
  have hlt : m % 16 < hexChars.length := Nat.mod_lt m (by norm_num)
  unfold hexChar
  rw [List.getD_eq_getElem?_getD, List.getElem?_eq_getElem hlt]
  exact List.getElem_mem hlt

/-- `hexChar` always yields a hexadecimal digit character. -/
theorem isHexChar_hexChar (m : Nat) : isHexChar (hexChar m) = true := by
  simpa [isHexChar, List.contains, List.elem_eq_mem] using hexChar_mem m

/-- The character list of a simulated transaction hash: the `0x` prefix
followed by the 64 digest digits. -/
theorem keccakHex_toList (s : String) :
    (keccakHex s).toList = '0' :: 'x' :: hexBody (digest256 s) := rfl

/-- The transaction hash returned by the simulated submission is the
keccak rendering of the interpolated fields. -/
theorem send_snd (node_id : Int) (energy : Rat) (node_class : String)
    (timestamp : Rat) (now : Rat) :
    (send_wsn_data_to_blockchain node_id energy node_class timestamp now).2 =
      keccakHex (toString node_id ++ "-" ++ toString energy ++ "-" ++
        node_class ++ "-" ++ toString timestamp ++ "-" ++ toString now) := rfl

/-- C10: the simulated blockchain submission succeeds on every input —
it returns `success = True` together with a non-empty transaction hash
consisting of `0x` followed by 64 hexadecimal digit characters; no
input reaches the failure branch, so a caller can never observe a
failed transaction. -/
theorem C10_blockchain_always_succeeds (node_id : Int) (energy : Rat)
    (node_class : String) (timestamp : Rat) (now : Rat) :
    (send_wsn_data_to_blockchain node_id energy node_class timestamp now).1
        = true ∧
    (send_wsn_data_to_blockchain node_id energy node_class timestamp now).2
        ≠ "" ∧
    (send_wsn_data_to_blockchain node_id energy node_class timestamp
        now).2.toList.length = 66 ∧
    (send_wsn_data_to_blockchain node_id energy node_class timestamp
        now).2.toList.take 2 = ['0', 'x'] ∧
    ∀ c ∈ (send_wsn_data_to_blockchain node_id energy node_class timestamp
        now).2.toList.drop 2, isHexChar c = true := by
  rw [send_snd]
  refine ⟨rfl, ?_, ?_, ?_, ?_⟩
  · intro hcontra
    have hdata := congrArg String.toList hcontra
    rw [keccakHex_toList] at hdata
    cases hdata
  · rw [keccakHex_toList]
    simp [hexBody]
  · rw [keccakHex_toList]
    rfl
  · intro c hc
    rw [keccakHex_toList] at hc
    simp only [List.drop_succ_cons, List.drop_zero, hexBody, List.mem_map,
      List.mem_range] at hc
    obtain ⟨k, _, rfl⟩ := hc
    exact isHexChar_hexChar _
